import Mathlib

set_option maxRecDepth 4000

/-!
Verification of the Script-Synthesiser relay server (src/server.js).

The server is an Express application that validates incoming JSON
bodies, builds payloads for an OpenAI-compatible upstream API, and
either returns the upstream JSON (buffered endpoints) or relays the
upstream byte stream (streaming endpoints).  This file shallowly embeds
the request handlers, the shared upstream-call helpers, the Express
routing order, and the streaming relay loop, and proves the spec claims
about them.

Conventions of the embedding:
* JavaScript JSON values are modelled by `JsVal`; an absent object
  field (JavaScript `undefined`) is modelled by `Option JsVal = none`.
* JavaScript numbers are modelled by `Rat`.  Every value the claims
  exercise is a small integer or a short decimal, where rational and
  IEEE-754 arithmetic agree exactly.
* Each route handler is a pure function from the destructured request
  body to a `HandlerResult`: either an early `clientError` response
  (validation failure, sent before any upstream call) or the upstream
  payload it would POST.
-/

/-- A JavaScript JSON value, as produced by Express's `express.json()`
body parser.  `undefined` is not a member: absent fields are modelled
as `Option JsVal = none` at the use sites. -/
inductive JsVal where
  | null : JsVal
  | bool : Bool → JsVal
  | num : Rat → JsVal
  | str : String → JsVal
  | arr : List JsVal → JsVal
  | obj : List (String × JsVal) → JsVal

/-- JavaScript truthiness of a JSON value: `null`, `false`, `0` and the
empty string are falsy; every array and object is truthy. -/
def truthy : JsVal → Bool
  | .null => false
  | .bool b => b
  | .num q => q != 0
  | .str s => s != ""
  | .arr _ => true
  | .obj _ => true

/-- Truthiness of a possibly-absent field: JavaScript `undefined`
(modelled by `none`) is falsy. -/
def truthyOpt : Option JsVal → Bool
  | none => false
  | some v => truthy v

/-- `Array.isArray` on a possibly-absent value. -/
def isJsArray : Option JsVal → Bool
  | some (.arr _) => true
  | _ => false

/-- The elements of an array value (used only after `Array.isArray`
succeeded, where it is exact). -/
def jsArrayElems : Option JsVal → List JsVal
  | some (.arr xs) => xs
  | _ => []

/-- String coercion of an element inside `Array.prototype.toString`:
JavaScript renders `null` as the empty string there.  Nested arrays are
approximated by the empty string (no claim coerces a nested array). -/
def jsAtomTemplateStr : JsVal → String
  | .null => ""
  | .bool true => "true"
  | .bool false => "false"
  | .num q => if q.den = 1 then toString q.num else toString q
  | .str s => s
  | .arr _ => ""
  | .obj _ => "[object Object]"

/-- JavaScript string coercion as performed inside a template literal.
The string and integer cases — the only ones any claim exercises — are
exact.  (Non-integer number printing is approximated by Lean's
`toString`, and array printing is one level deep.) -/
def jsTemplateStr : JsVal → String
  | .null => "null"
  | .bool true => "true"
  | .bool false => "false"
  | .num q => if q.den = 1 then toString q.num else toString q
  | .str s => s
  | .arr xs => String.intercalate "," (xs.map jsAtomTemplateStr)
  | .obj _ => "[object Object]"

/-- Template-literal coercion of a possibly-absent value: JavaScript
renders `undefined` as the string "undefined". -/
def jsTemplateStrOpt : Option JsVal → String
  | none => "undefined"
  | some v => jsTemplateStr v

/-- `Number(v)` coercion, used by the arithmetic in the script-length
heuristic.  Exact on numbers and booleans and `null`; the claims only
exercise numbers.  (String-to-number parsing is approximated by 0.) -/
def jsToNumber : JsVal → Rat
  | .null => 0
  | .bool true => 1
  | .bool false => 0
  | .num q => q
  | .str _ => 0
  | .arr _ => 0
  | .obj _ => 0

/-- Outcome of running a route handler up to (but not including) the
network call: either an early client-error response, or the payload
that would be POSTed upstream.  A `clientError` result means no
upstream call is made. -/
inductive HandlerResult (P : Type) where
  | clientError (status : Nat) (message : String) : HandlerResult P
  | callUpstream (payload : P) : HandlerResult P

/-- A chat message of the upstream payload (role/content pair). -/
structure ChatMessage where
  role : String
  content : String

/-- Upstream payload built by `POST /api/chat` (src/server.js line 82):
`\x7b model, messages, max_tokens: maxTokens, temperature \x7d`, where
`model` and `messages` are the raw (possibly absent) body fields. -/
structure ChatPayload where
  model : Option JsVal
  messages : Option JsVal
  max_tokens : JsVal
  temperature : JsVal

/-- The destructured body of `POST /api/chat` (line 75):
`const \x7b model, messages, temperature = 0.7, maxTokens = 512 \x7d = req.body`.
`none` models an absent field. -/
structure ChatBody where
  model : Option JsVal
  messages : Option JsVal
  temperature : Option JsVal
  maxTokens : Option JsVal

/-- The `POST /api/chat` handler (lines 74-93) up to the upstream call:
destructuring defaults `temperature = 0.7`, `maxTokens = 512` apply only
when the field is absent; `if (!model)` returns 400 "Model is required";
otherwise the payload is POSTed to /v1/chat/completions. -/
def chatHandler (b : ChatBody) : HandlerResult ChatPayload :=
  let temperature := b.temperature.getD (.num ((7 : Rat) / 10))
  let maxTokens := b.maxTokens.getD (.num 512)
  if !truthyOpt b.model then
    .clientError 400 "Model is required"
  else
    .callUpstream
      { model := b.model
        messages := b.messages
        max_tokens := maxTokens
        temperature := temperature }

/-- The keys present in `JSON.stringify` of a `ChatPayload`:
`JSON.stringify` omits properties whose value is `undefined`
(modelled by `none`). -/
def chatPayloadKeys (p : ChatPayload) : List String :=
  (if p.model.isSome then ["model"] else []) ++
    (if p.messages.isSome then ["messages"] else []) ++
    ["max_tokens", "temperature"]

/-! ## Upstream call and the shared error envelope -/

/-- An HTTP response sent to the client: status code and JSON body. -/
structure HttpResponse where
  status : Nat
  body : JsVal

/-- Does a JSON object body contain the given key? -/
def JsVal.hasField : JsVal → String → Bool
  | .obj fields, key => fields.any fun f => f.1 == key
  | _, _ => false

/-- The upstream response as seen by `fetch`: its HTTP status, its body
as text, and its body parsed as JSON (used only when consumed). -/
structure UpstreamResponse where
  status : Nat
  bodyText : String
  bodyJson : JsVal

/-- `response.ok` of the Fetch API: status in the inclusive range
200-299. -/
def responseOk (r : UpstreamResponse) : Bool :=
  200 ≤ r.status && r.status ≤ 299

/-- `callLmStudio` (src/server.js lines 17-33) after the network
transfer: on a non-ok status it throws
"LM Studio responded with STATUS: TEXT", otherwise it returns the
parsed JSON body.  The thrown error message is the `Except.error`
value. -/
def callLmStudio (r : UpstreamResponse) : Except String JsVal :=
  if responseOk r then
    .ok r.bodyJson
  else
    .error ("LM Studio responded with " ++ toString r.status ++ ": " ++ r.bodyText)

/-- `errorResponse` (lines 12-15): a 500 response whose JSON body is
an object with a `message` field holding `error.message` when that is
truthy and "Unexpected error" otherwise. -/
def errorResponse (message : String) : HttpResponse :=
  { status := 500
    body := .obj [("message", .str (if message == "" then "Unexpected error" else message))] }

/-- The shared try/catch shape of every buffered route (lines 65-72,
81-92, 108-122, 165-179): `res.json(data)` (status 200) when
`callLmStudio` succeeds, `errorResponse` when it throws. -/
def bufferedRespond (r : UpstreamResponse) : HttpResponse :=
  match callLmStudio r with
  | .ok data => { status := 200, body := data }
  | .error e => errorResponse e

/-- A whole buffered route: validation result first (a `clientError`
is sent as-is, with an object body carrying its message, and no
upstream call happens), then the shared upstream try/catch. -/
def respondBuffered {P : Type} (h : HandlerResult P) (r : UpstreamResponse) : HttpResponse :=
  match h with
  | .clientError status message => { status := status, body := .obj [("message", .str message)] }
  | .callUpstream _ => bufferedRespond r

/-! ## Style analysis endpoints -/

/-- The destructured body of both style-analysis routes (lines 96 and
126): `const \x7b model, samples \x7d = req.body`. -/
structure StyleBody where
  model : Option JsVal
  samples : Option JsVal

/-- The validation guard of both style-analysis routes (lines 98 and
128): `!model || !samples || !Array.isArray(samples) || samples.length === 0`. -/
def styleInvalid (b : StyleBody) : Bool :=
  !truthyOpt b.model || !truthyOpt b.samples || !isJsArray b.samples ||
    (jsArrayElems b.samples).length == 0

/-- The fixed system prompt of `POST /api/analyze-style` (line 102). -/
def stylePromptBuffered : String :=
  "You are a writing style synthesiser. Given the following samples, extract a concise master style guide. Capture tone, pacing, vocabulary, imagery, sentence length, hypnotic devices (e.g., repetition, rhythm, embedded commands), and persona. Provide 5-7 bullet points titled \"Master Style\" followed by a 2-3 sentence summary under \"Voice Overview\". Keep it actionable."

/-- The fixed system prompt of `POST /api/analyze-style/stream`
(line 132): the buffered prompt plus a streaming instruction. -/
def stylePromptStream : String :=
  "You are a writing style synthesiser. Given the following samples, extract a concise master style guide. Capture tone, pacing, vocabulary, imagery, sentence length, hypnotic devices (e.g., repetition, rhythm, embedded commands), and persona. Provide 5-7 bullet points titled \"Master Style\" followed by a 2-3 sentence summary under \"Voice Overview\". Keep it actionable. Stream partial results as they become available."

/-- `joinedSamples` (lines 104-106 and 134-136):
`samples.map((sample, index) => template).join('\n\n')` where the
template renders "Sample INDEX+1:" a newline and the sample. -/
def joinedSamples (samples : List JsVal) : String :=
  String.intercalate "\n\n"
    (samples.enum.map fun p => "Sample " ++ toString (p.1 + 1) ++ ":\n" ++ jsTemplateStr p.2)

/-- Upstream payload built by the style and script routes: a fixed
two-message conversation plus generation parameters.  `stream` records
whether the payload carries `stream: true` (the streaming routes). -/
structure PromptPayload where
  stream : Bool
  model : Option JsVal
  messages : List ChatMessage
  max_tokens : JsVal
  temperature : JsVal

/-- The `POST /api/analyze-style` handler (lines 95-123) up to the
upstream call: validation guard, then the payload of line 109 with
`max_tokens: 600, temperature: 0.5`. -/
def analyzeStyleHandler (b : StyleBody) : HandlerResult PromptPayload :=
  if styleInvalid b then
    .clientError 400 "Model and at least one text sample are required."
  else
    .callUpstream
      { stream := false
        model := b.model
        messages :=
          [ { role := "system", content := stylePromptBuffered }
          , { role := "user", content := joinedSamples (jsArrayElems b.samples) } ]
        max_tokens := .num 600
        temperature := .num ((1 : Rat) / 2) }

/-- The `POST /api/analyze-style/stream` handler (lines 125-152) up to
the upstream call: same validation, the streaming prompt, and
`stream: true` in the payload (line 139). -/
def analyzeStyleStreamHandler (b : StyleBody) : HandlerResult PromptPayload :=
  if styleInvalid b then
    .clientError 400 "Model and at least one text sample are required."
  else
    .callUpstream
      { stream := true
        model := b.model
        messages :=
          [ { role := "system", content := stylePromptStream }
          , { role := "user", content := joinedSamples (jsArrayElems b.samples) } ]
        max_tokens := .num 600
        temperature := .num ((1 : Rat) / 2) }

/-! ## Script generation endpoints -/

/-- The destructured body of both script-generation routes (lines 155
and 183):
`const \x7b model, styleSummary, length = 400, intensity = 6, theme \x7d = req.body`.
The defaults apply only when the field is absent. -/
structure ScriptBody where
  model : Option JsVal
  styleSummary : Option JsVal
  length : Option JsVal
  intensity : Option JsVal
  theme : Option JsVal

/-- `Math.round` on a rational: round half toward positive infinity,
exactly JavaScript's behaviour on the exact value. -/
def mathRound (q : Rat) : Int :=
  ⌊q + (1 : Rat) / 2⌋

/-- The token budget of lines 172 and 201:
`Math.min(Math.max(Math.round(length / 0.75), 256), 2000)` applied to
the (defaulted) `length` value. -/
def scriptMaxTokens (lengthVal : JsVal) : Int :=
  min (max (mathRound (jsToNumber lengthVal / ((3 : Rat) / 4))) 256) 2000

/-- The system prompt of the script routes (lines 161 and 189),
parameterized by the defaulted `length` and `intensity` values;
`streamMode` appends the extra sentence of the streaming route. -/
def scriptSystemPrompt (lengthVal intensityVal : JsVal) (streamMode : Bool) : String :=
  "Using the provided master style, write a hypnotic script. Respect the tone, pacing, and hypnotic devices described. Approximate length: " ++
    jsTemplateStr lengthVal ++ " words. Intensity 1-10: " ++ jsTemplateStr intensityVal ++
    " (1 = light relaxation, 10 = profound trance). Include a brief induction, deepening, themed body, and gentle exit. Keep language safe and supportive." ++
    (if streamMode then " Stream partial results as they become available." else "")

/-- The user-turn content of the script routes (lines 163 and 191):
the optional theme line (present exactly when `theme` is truthy)
followed by "Master style:" and the style summary. -/
def scriptUserContent (theme styleSummary : Option JsVal) : String :=
  (match theme with
    | some t => if truthy t then "Theme or focus: " ++ jsTemplateStr t ++ "\n\n" else ""
    | none => "") ++
    "Master style:\n" ++ jsTemplateStrOpt styleSummary

/-- The `POST /api/generate-script` handler (lines 154-180) up to the
upstream call: validation guard `!model || !styleSummary`, then the
payload of line 166 with the derived token budget and
`temperature: 0.7`. -/
def generateScriptHandler (b : ScriptBody) : HandlerResult PromptPayload :=
  let lengthVal := b.length.getD (.num 400)
  let intensityVal := b.intensity.getD (.num 6)
  if !truthyOpt b.model || !truthyOpt b.styleSummary then
    .clientError 400 "Model and a style summary are required."
  else
    .callUpstream
      { stream := false
        model := b.model
        messages :=
          [ { role := "system", content := scriptSystemPrompt lengthVal intensityVal false }
          , { role := "user", content := scriptUserContent b.theme b.styleSummary } ]
        max_tokens := .num (scriptMaxTokens lengthVal)
        temperature := .num ((7 : Rat) / 10) }

/-- The `POST /api/generate-script/stream` handler (lines 182-207) up
to the upstream call: same validation and token budget, the streaming
prompt, and `stream: true` in the payload (line 194). -/
def generateScriptStreamHandler (b : ScriptBody) : HandlerResult PromptPayload :=
  let lengthVal := b.length.getD (.num 400)
  let intensityVal := b.intensity.getD (.num 6)
  if !truthyOpt b.model || !truthyOpt b.styleSummary then
    .clientError 400 "Model and a style summary are required."
  else
    .callUpstream
      { stream := true
        model := b.model
        messages :=
          [ { role := "system", content := scriptSystemPrompt lengthVal intensityVal true }
          , { role := "user", content := scriptUserContent b.theme b.styleSummary } ]
        max_tokens := .num (scriptMaxTokens lengthVal)
        temperature := .num ((7 : Rat) / 10) }

/-! ## Express routing -/

/-- The HTTP method of an inbound request.  Express dispatches `HEAD`
requests to `app.get` routes as well. -/
inductive Method where
  | GET
  | HEAD
  | POST
  | other
deriving DecidableEq

/-- Which handler an inbound request reaches. -/
inductive RouteTarget where
  | staticAsset
  | models
  | chat
  | analyzeStyle
  | analyzeStyleStream
  | generateScript
  | generateScriptStream
  | serveIndex
  | expressNotFound
deriving DecidableEq

/-- Express's routing of src/server.js in registration order: the
static middleware (line 10, GET/HEAD for an existing asset, abstracted
by the predicate `isStaticAsset`), the six API routes (lines 65, 74,
95, 125, 154, 182), the `app.get('*')` fallback serving index.html
(lines 209-211), and Express's built-in 404 for anything left —
in particular for every non-GET request to an unmatched path. -/
def dispatch (isStaticAsset : String → Bool) (m : Method) (p : String) : RouteTarget :=
  if (m = .GET ∨ m = .HEAD) && isStaticAsset p then .staticAsset
  else if (m = .GET ∨ m = .HEAD) && p == "/api/models" then .models
  else if m = .POST && p == "/api/chat" then .chat
  else if m = .POST && p == "/api/analyze-style" then .analyzeStyle
  else if m = .POST && p == "/api/analyze-style/stream" then .analyzeStyleStream
  else if m = .POST && p == "/api/generate-script" then .generateScript
  else if m = .POST && p == "/api/generate-script/stream" then .generateScriptStream
  else if m = .GET ∨ m = .HEAD then .serveIndex
  else .expressNotFound

/-! ## The streaming relay

`streamLmStudio` (src/server.js lines 35-63) iterates the upstream
body and, for each chunk, writes
`typeof chunk === 'string' ? chunk : Buffer.from(chunk).toString()` to
the client.  Fetch bodies yield byte chunks (`Uint8Array`), so each
chunk is decoded as UTF-8 text — Node's `Buffer.toString()` is the
WHATWG UTF-8 decoder, replacing every invalid sequence with U+FFFD —
and `res.write` of the resulting string re-encodes it as UTF-8 bytes.
We model a byte as a `Nat` and a chunk as a `List Nat`. -/

/-- Is a byte a UTF-8 continuation byte (0x80-0xBF)? -/
def isContByte (b : Nat) : Bool :=
  0x80 ≤ b && b ≤ 0xBF

/-- One step of the WHATWG UTF-8 decoder (Node's `Buffer.toString()`)
on lead byte `b` with remaining input `bs`: the decoded code point
(U+FFFD = 65533 for an invalid maximal subpart) and the input that
remains to be decoded.  Lead bytes 0xC0/0xC1 and 0xF5-0xFF are
invalid; 3-byte sequences exclude overlongs (lead 0xE0 needs a second
byte ≥ 0xA0) and surrogates (lead 0xED needs a second byte ≤ 0x9F);
4-byte sequences exclude overlongs (0xF0 needs ≥ 0x90) and values
above U+10FFFF (0xF4 needs ≤ 0x8F).  A truncated sequence at end of
input yields one U+FFFD; an invalid continuation byte yields U+FFFD
and is then reconsumed as a fresh lead byte. -/
def utf8DecodeOne (b : Nat) (bs : List Nat) : Nat × List Nat :=
  if b ≤ 0x7F then
    (b, bs)
  else if 0xC2 ≤ b && b ≤ 0xDF then
    match bs with
    | [] => (0xFFFD, [])
    | b1 :: rest =>
      if isContByte b1 then
        ((b - 0xC0) * 64 + (b1 - 0x80), rest)
      else
        (0xFFFD, b1 :: rest)
  else if 0xE0 ≤ b && b ≤ 0xEF then
    match bs with
    | [] => (0xFFFD, [])
    | b1 :: rest1 =>
      if (if b = 0xE0 then 0xA0 else 0x80) ≤ b1 && b1 ≤ (if b = 0xED then 0x9F else 0xBF) then
        match rest1 with
        | [] => (0xFFFD, [])
        | b2 :: rest2 =>
          if isContByte b2 then
            ((b - 0xE0) * 4096 + (b1 - 0x80) * 64 + (b2 - 0x80), rest2)
          else
            (0xFFFD, b2 :: rest2)
      else
        (0xFFFD, b1 :: rest1)
  else if 0xF0 ≤ b && b ≤ 0xF4 then
    match bs with
    | [] => (0xFFFD, [])
    | b1 :: rest1 =>
      if (if b = 0xF0 then 0x90 else 0x80) ≤ b1 && b1 ≤ (if b = 0xF4 then 0x8F else 0xBF) then
        match rest1 with
        | [] => (0xFFFD, [])
        | b2 :: rest2 =>
          if isContByte b2 then
            match rest2 with
            | [] => (0xFFFD, [])
            | b3 :: rest3 =>
              if isContByte b3 then
                ((b - 0xF0) * 262144 + (b1 - 0x80) * 4096 + (b2 - 0x80) * 64 + (b3 - 0x80),
                  rest3)
              else
                (0xFFFD, b3 :: rest3)
          else
            (0xFFFD, b2 :: rest2)
      else
        (0xFFFD, b1 :: rest1)
  else
    (0xFFFD, bs)

/-- The decoder driven by fuel (one unit per decoded code point), so
that the recursion is structural and the kernel can evaluate it.  Any
fuel of at least the input length gives the decoder's value. -/
def utf8DecodeAux : Nat → List Nat → List Nat
  | 0, _ => []
  | _ + 1, [] => []
  | fuel + 1, b :: bs =>
    (utf8DecodeOne b bs).1 :: utf8DecodeAux fuel (utf8DecodeOne b bs).2

/-- The WHATWG UTF-8 decoder: bytes to code points, with U+FFFD
replacement (see `utf8DecodeStep`). -/
def utf8Decode (l : List Nat) : List Nat :=
  utf8DecodeAux l.length l

/-- UTF-8 encoding of one code point (what `res.write` does to each
character of a JavaScript string). -/
def utf8EncodeChar (c : Nat) : List Nat :=
  if c ≤ 0x7F then [c]
  else if c ≤ 0x7FF then [0xC0 + c / 64, 0x80 + c % 64]
  else if c ≤ 0xFFFF then [0xE0 + c / 4096, 0x80 + c / 64 % 64, 0x80 + c % 64]
  else [0xF0 + c / 262144, 0x80 + c / 4096 % 64, 0x80 + c / 64 % 64, 0x80 + c % 64]

/-- UTF-8 encoding of a sequence of code points. -/
def utf8Encode (cs : List Nat) : List Nat :=
  (cs.map utf8EncodeChar).flatten

/-- What one iteration of the relay loop (line 60) sends to the client
for one upstream byte chunk: `Buffer.from(chunk).toString()` decodes
the chunk as UTF-8 text, and writing the string re-encodes it. -/
def relayChunk (chunk : List Nat) : List Nat :=
  utf8Encode (utf8Decode chunk)

/-- The full sequence of client writes of the relay loop (lines 59-61)
when the upstream body yields the given chunks: one write per chunk, in
arrival order. -/
def relayWrites (chunks : List (List Nat)) : List (List Nat) :=
  chunks.map relayChunk

/-- A Unicode scalar value: a code point below 0x110000 that is not a
surrogate. -/
def isScalar (c : Nat) : Bool :=
  c < 0x110000 && !(0xD800 ≤ c && c ≤ 0xDFFF)

/-- A byte string is valid UTF-8 when it is the encoding of some
sequence of Unicode scalar values. -/
def ValidUtf8 (bs : List Nat) : Prop :=
  ∃ cs : List Nat, (∀ c ∈ cs, isScalar c = true) ∧ utf8Encode cs = bs

/-! ## Client disconnect and upstream cancellation

`streamLmStudio` (lines 35-63) proceeds in program order:
headers are set and flushed (lines 37-40), the upstream `fetch` is
awaited under `controller.signal` (lines 42-50), the ok/body check runs
(lines 52-55), and only then — line 57 — is the close listener
`req.on('close', () => controller.abort())` registered, after which the
relay loop runs (lines 59-61).  Node emits `close` on the request once;
a listener attached after the event has fired is never invoked.  The
trace model below takes the upstream chunk sequence and the position of
the client disconnect in this timeline and records whether the
controller was aborted and how much of the upstream body was consumed:

* disconnect before line 57 runs (`beforeEstablish`, i.e. while the
  upstream call of line 42 is still being awaited or checked): the
  `close` event fires with no listener attached, `controller.abort()`
  is never called, and the loop drains the entire upstream body;
* disconnect after `k` chunks have been relayed (`afterChunk k`,
  `k < N`): the listener fires, `controller.abort()` cancels the fetch,
  the body iterator raises, and no further chunks are consumed;
* disconnect after the stream already ended, or no disconnect: the
  whole body was consumed normally (a late `abort()` on a finished
  request is a no-op, recorded as `upstreamAborted := true`). -/

/-- When, relative to the relay's timeline, the client disconnects. -/
inductive Disconnect where
  | never
  | beforeEstablish
  | afterChunk (k : Nat)

/-- Observable outcome of one streaming-relay request. -/
structure RelayRun where
  upstreamAborted : Bool
  upstreamChunksRead : Nat
  clientWrites : List (List Nat)

/-- The outcome of `streamLmStudio` for a given upstream chunk
sequence and client-disconnect time (see the section comment for the
line-by-line correspondence). -/
def runStreamRelay (chunks : List (List Nat)) (d : Disconnect) : RelayRun :=
  match d with
  | .never =>
    { upstreamAborted := false
      upstreamChunksRead := chunks.length
      clientWrites := relayWrites chunks }
  | .beforeEstablish =>
    { upstreamAborted := false
      upstreamChunksRead := chunks.length
      clientWrites := relayWrites chunks }
  | .afterChunk k =>
    if k < chunks.length then
      { upstreamAborted := true
        upstreamChunksRead := k
        clientWrites := relayWrites (chunks.take k) }
    else
      { upstreamAborted := true
        upstreamChunksRead := chunks.length
        clientWrites := relayWrites chunks }


/-! ## Lemmas about the decoder -/

theorem utf8DecodeOne_tail_length (b : Nat) (bs : List Nat) :
    (utf8DecodeOne b bs).2.length ≤ bs.length := by
  unfold utf8DecodeOne
  repeat' split
  all_goals simp_arith

theorem utf8DecodeAux_irrel : ∀ (f₁ f₂ : Nat) (l : List Nat),
    l.length ≤ f₁ → l.length ≤ f₂ → utf8DecodeAux f₁ l = utf8DecodeAux f₂ l := by
  intro f₁
  induction f₁ with
  | zero =>
    intro f₂ l h1 _
    have hl : l = [] := List.eq_nil_of_length_eq_zero (Nat.le_zero.mp h1)
    subst hl
    cases f₂ <;> rfl
  | succ f ih =>
    intro f₂ l h1 h2
    cases l with
    | nil => cases f₂ <;> rfl
    | cons b bs =>
      cases f₂ with
      | zero => simp at h2
      | succ g =>
        simp only [utf8DecodeAux]
        have htail := utf8DecodeOne_tail_length b bs
        simp only [List.length_cons] at h1 h2
        exact congrArg _ (ih g _ (by omega) (by omega))

theorem utf8Decode_cons (b : Nat) (bs : List Nat) :
    utf8Decode (b :: bs) =
      (utf8DecodeOne b bs).1 :: utf8Decode (utf8DecodeOne b bs).2 := by
  show utf8DecodeAux (bs.length + 1) (b :: bs) = _
  simp only [utf8DecodeAux]
  exact congrArg _ (utf8DecodeAux_irrel _ _ _ (utf8DecodeOne_tail_length b bs) le_rfl)

theorem utf8DecodeOne_ascii (c : Nat) (rest : List Nat) (h : c ≤ 0x7F) :
    utf8DecodeOne c rest = (c, rest) := by
  unfold utf8DecodeOne
  rw [if_pos h]

theorem utf8DecodeOne_two (c : Nat) (rest : List Nat) (h1 : 0x80 ≤ c) (h2 : c ≤ 0x7FF) :
    utf8DecodeOne (0xC0 + c / 64) ((0x80 + c % 64) :: rest) = (c, rest) := by
  unfold utf8DecodeOne
  rw [if_neg (by omega)]
  rw [if_pos (show (decide (0xC2 ≤ 0xC0 + c / 64) && decide (0xC0 + c / 64 ≤ 0xDF)) = true by
    simp only [Bool.and_eq_true, decide_eq_true_eq]
    omega)]
  simp only []
  rw [if_pos (show isContByte (0x80 + c % 64) = true by
    simp only [isContByte, Bool.and_eq_true, decide_eq_true_eq]
    omega)]
  congr 1
  omega

theorem utf8DecodeOne_three (c : Nat) (rest : List Nat) (h1 : 0x800 ≤ c) (h2 : c ≤ 0xFFFF)
    (h3 : ¬(0xD800 ≤ c ∧ c ≤ 0xDFFF)) :
    utf8DecodeOne (0xE0 + c / 4096) ((0x80 + c / 64 % 64) :: (0x80 + c % 64) :: rest) =
      (c, rest) := by
  unfold utf8DecodeOne
  rw [if_neg (by omega)]
  rw [if_neg (show ¬(decide (0xC2 ≤ 0xE0 + c / 4096) && decide (0xE0 + c / 4096 ≤ 0xDF)) = true by
    simp only [Bool.and_eq_true, decide_eq_true_eq]
    omega)]
  rw [if_pos (show (decide (0xE0 ≤ 0xE0 + c / 4096) && decide (0xE0 + c / 4096 ≤ 0xEF)) = true by
    simp only [Bool.and_eq_true, decide_eq_true_eq]
    omega)]
  simp only []
  rw [if_pos (show (decide ((if 0xE0 + c / 4096 = 0xE0 then 0xA0 else 0x80) ≤ 0x80 + c / 64 % 64) &&
      decide (0x80 + c / 64 % 64 ≤ if 0xE0 + c / 4096 = 0xED then 0x9F else 0xBF)) = true by
    simp only [Bool.and_eq_true, decide_eq_true_eq]
    constructor
    · split <;> omega
    · split <;> omega)]
  rw [if_pos (show isContByte (0x80 + c % 64) = true by
    simp only [isContByte, Bool.and_eq_true, decide_eq_true_eq]
    omega)]
  congr 1
  omega

theorem utf8DecodeOne_four (c : Nat) (rest : List Nat) (h1 : 0x10000 ≤ c) (h2 : c < 0x110000) :
    utf8DecodeOne (0xF0 + c / 262144)
        ((0x80 + c / 4096 % 64) :: (0x80 + c / 64 % 64) :: (0x80 + c % 64) :: rest) =
      (c, rest) := by
  unfold utf8DecodeOne
  rw [if_neg (by omega)]
  rw [if_neg (show ¬(decide (0xC2 ≤ 0xF0 + c / 262144) &&
      decide (0xF0 + c / 262144 ≤ 0xDF)) = true by
    simp only [Bool.and_eq_true, decide_eq_true_eq]
    omega)]
  rw [if_neg (show ¬(decide (0xE0 ≤ 0xF0 + c / 262144) &&
      decide (0xF0 + c / 262144 ≤ 0xEF)) = true by
    simp only [Bool.and_eq_true, decide_eq_true_eq]
    omega)]
  rw [if_pos (show (decide (0xF0 ≤ 0xF0 + c / 262144) &&
      decide (0xF0 + c / 262144 ≤ 0xF4)) = true by
    simp only [Bool.and_eq_true, decide_eq_true_eq]
    omega)]
  simp only []
  rw [if_pos (show (decide ((if 0xF0 + c / 262144 = 0xF0 then 0x90 else 0x80) ≤ 0x80 + c / 4096 % 64) &&
      decide (0x80 + c / 4096 % 64 ≤ if 0xF0 + c / 262144 = 0xF4 then 0x8F else 0xBF)) = true by
    simp only [Bool.and_eq_true, decide_eq_true_eq]
    constructor
    · split <;> omega
    · split <;> omega)]
  rw [if_pos (show isContByte (0x80 + c / 64 % 64) = true by
    simp only [isContByte, Bool.and_eq_true, decide_eq_true_eq]
    omega)]
  rw [if_pos (show isContByte (0x80 + c % 64) = true by
    simp only [isContByte, Bool.and_eq_true, decide_eq_true_eq]
    omega)]
  congr 1
  omega

/-- Decoding consumes the encoding of one scalar value exactly. -/
theorem utf8Decode_encodeChar (c : Nat) (hc : isScalar c = true) (rest : List Nat) :
    utf8Decode (utf8EncodeChar c ++ rest) = c :: utf8Decode rest := by
  have hc' : c < 0x110000 ∧ (c < 0xD800 ∨ 0xDFFF < c) := by
    simpa [isScalar, Bool.and_eq_true, decide_eq_true_eq, Bool.not_eq_true'] using hc
  unfold utf8EncodeChar
  split_ifs with h1 h2 h3
  · simp only [List.cons_append, List.nil_append]
    rw [utf8Decode_cons, utf8DecodeOne_ascii c rest h1]
  · simp only [List.cons_append, List.nil_append]
    rw [utf8Decode_cons, utf8DecodeOne_two c rest (by omega) h2]
  · simp only [List.cons_append, List.nil_append]
    rw [utf8Decode_cons, utf8DecodeOne_three c rest (by omega) h3 (by omega)]
  · simp only [List.cons_append, List.nil_append]
    rw [utf8Decode_cons, utf8DecodeOne_four c rest (by omega) (by omega)]

/-- Decoding inverts encoding on sequences of scalar values. -/
theorem utf8Decode_utf8Encode (cs : List Nat) (h : ∀ c ∈ cs, isScalar c = true) :
    utf8Decode (utf8Encode cs) = cs := by
  induction cs with
  | nil => rfl
  | cons c cs ih =>
    have hsplit : utf8Encode (c :: cs) = utf8EncodeChar c ++ utf8Encode cs := by
      simp [utf8Encode]
    rw [hsplit, utf8Decode_encodeChar c (h c (by simp)),
      ih (fun x hx => h x (by simp [hx]))]

/-- A chunk that is valid UTF-8 passes through the relay unchanged. -/
theorem relayChunk_of_valid (chunk : List Nat) (h : ValidUtf8 chunk) :
    relayChunk chunk = chunk := by
  obtain ⟨cs, hcs, henc⟩ := h
  rw [relayChunk, ← henc, utf8Decode_utf8Encode cs hcs]

/-! ## Spec-side renderings used by refinement claims -/

/-- The enumerated sample blocks exactly as the spec words them: sample
i (1-based) rendered as "Sample i:" followed by a newline and the
sample text. -/
def specSampleBlocks : Nat → List String → List String
  | _, [] => []
  | i, s :: rest => ("Sample " ++ toString i ++ ":\n" ++ s) :: specSampleBlocks (i + 1) rest

/-- The spec's wording of the style-analysis user turn: the enumerated
blocks separated by a blank line. -/
def specJoinedSamples (samples : List String) : String :=
  String.intercalate "\n\n" (specSampleBlocks 1 samples)

/-- The clamp function as the spec words it. -/
def specClamp (x lo hi : Int) : Int :=
  min (max x lo) hi

/-- The `max_tokens` value of a would-be upstream prompt payload
(`none` when validation already rejected the request). -/
def sentMaxTokens : HandlerResult PromptPayload → Option JsVal
  | .clientError _ _ => none
  | .callUpstream p => some p.max_tokens

/-! ## Shared handler-equation helpers -/

theorem specSampleBlocks_eq (samples : List String) : ∀ n : Nat,
    ((samples.map JsVal.str).enumFrom n).map
        (fun p => "Sample " ++ toString (p.1 + 1) ++ ":\n" ++ jsTemplateStr p.2) =
      specSampleBlocks (n + 1) samples := by
  induction samples with
  | nil => intro n; rfl
  | cons s rest ih =>
    intro n
    simp only [List.map_cons, List.enumFrom, specSampleBlocks]
    exact congr (congrArg List.cons rfl) (ih (n + 1))

/-- The source's map-with-index-and-join over string samples agrees
with the spec's enumerated-blocks rendering. -/
theorem joinedSamples_spec (samples : List String) :
    joinedSamples (samples.map .str) = specJoinedSamples samples := by
  unfold joinedSamples specJoinedSamples
  rw [show (samples.map JsVal.str).enum = (samples.map JsVal.str).enumFrom 0 from rfl,
    specSampleBlocks_eq samples 0]

theorem chatHandler_valid (b : ChatBody) (hm : truthyOpt b.model = true) :
    chatHandler b = .callUpstream
      { model := b.model
        messages := b.messages
        max_tokens := b.maxTokens.getD (.num 512)
        temperature := b.temperature.getD (.num ((7 : Rat) / 10)) } := by
  simp [chatHandler, hm]

theorem generateScriptHandler_valid (b : ScriptBody) (hm : truthyOpt b.model = true)
    (hs : truthyOpt b.styleSummary = true) :
    generateScriptHandler b = .callUpstream
      { stream := false
        model := b.model
        messages :=
          [ { role := "system",
              content := scriptSystemPrompt (b.length.getD (.num 400))
                (b.intensity.getD (.num 6)) false }
          , { role := "user", content := scriptUserContent b.theme b.styleSummary } ]
        max_tokens := .num (scriptMaxTokens (b.length.getD (.num 400)))
        temperature := .num ((7 : Rat) / 10) } := by
  simp [generateScriptHandler, hm, hs]

theorem generateScriptStreamHandler_valid (b : ScriptBody) (hm : truthyOpt b.model = true)
    (hs : truthyOpt b.styleSummary = true) :
    generateScriptStreamHandler b = .callUpstream
      { stream := true
        model := b.model
        messages :=
          [ { role := "system",
              content := scriptSystemPrompt (b.length.getD (.num 400))
                (b.intensity.getD (.num 6)) true }
          , { role := "user", content := scriptUserContent b.theme b.styleSummary } ]
        max_tokens := .num (scriptMaxTokens (b.length.getD (.num 400)))
        temperature := .num ((7 : Rat) / 10) } := by
  simp [generateScriptStreamHandler, hm, hs]

theorem styleInvalid_false (m : JsVal) (samples : List JsVal) (hm : truthy m = true)
    (hne : samples ≠ []) :
    styleInvalid { model := some m, samples := some (.arr samples) } = false := by
  have h1 : truthyOpt (some m) = true := hm
  have h2 : truthyOpt (some (JsVal.arr samples)) = true := rfl
  have h3 : isJsArray (some (JsVal.arr samples)) = true := rfl
  have h4 : jsArrayElems (some (JsVal.arr samples)) = samples := rfl
  simp [styleInvalid, h1, h2, h3, h4, List.length_eq_zero, hne]

/-! ## Claim theorems -/

/-- Claim C1, counterexample: the relay does not always preserve byte
content.  An em dash (U+2014, bytes E2 80 94) split by the transport
into the chunks [E2 80] and [94] is decoded per chunk by line 60 of
src/server.js, so each fragment becomes U+FFFD and the client receives
EF BF BD — not the upstream bytes. -/
theorem relay_bytes_not_verbatim :
    relayWrites [[0xE2, 0x80], [0x94]] ≠ [[0xE2, 0x80], [0x94]] := by
  decide

/-- Claim C1, amended: for every upstream chunk sequence the client
receives exactly as many chunks, in arrival order (one `res.write` per
chunk); and whenever every individual chunk is valid UTF-8 the bytes
are also identical — each chunk is decoded as UTF-8 text and
re-encoded, which is the identity exactly on chunks that are valid
UTF-8 on their own. -/
theorem relay_chunk_count_order_and_utf8_identity (chunks : List (List Nat)) :
    (relayWrites chunks).length = chunks.length ∧
    ((∀ ch ∈ chunks, ValidUtf8 ch) → relayWrites chunks = chunks) := by
  constructor
  · simp [relayWrites]
  · intro h
    unfold relayWrites
    rw [List.map_congr_left (g := id) fun ch hch => relayChunk_of_valid ch (h ch hch)]
    exact List.map_id chunks

/-- Claim C1, witness: a concrete ASCII chunk and a concrete complete
em-dash chunk pass through the relay byte-identically. -/
theorem relay_chunk_count_order_and_utf8_identity_witness :
    (relayWrites [[0x48, 0x69], [0xE2, 0x80, 0x94]]).length = 2 ∧
    relayWrites [[0x48, 0x69], [0xE2, 0x80, 0x94]] = [[0x48, 0x69], [0xE2, 0x80, 0x94]] := by
  have hvalid : ∀ ch ∈ [[0x48, 0x69], [0xE2, 0x80, 0x94]], ValidUtf8 ch := by
    intro ch hch
    simp only [List.mem_cons, List.not_mem_nil, or_false] at hch
    rcases hch with h | h <;> subst h
    · exact ⟨[0x48, 0x69], by decide, by decide⟩
    · exact ⟨[0x2014], by decide, by decide⟩
  exact ⟨(relay_chunk_count_order_and_utf8_identity _).1,
    (relay_chunk_count_order_and_utf8_identity _).2 hvalid⟩

/-- Claim C2, counterexample: a client disconnect that happens before
the upstream response is established (while line 42's fetch is still
being awaited) is not propagated — the close listener of line 57 is
only registered afterwards, so the controller is never aborted and the
relay loop drains the whole upstream body (here 1 chunk) anyway. -/
theorem relay_cancel_claim_false :
    ¬ ((runStreamRelay [[0x48]] Disconnect.beforeEstablish).upstreamAborted = true ∧
       (runStreamRelay [[0x48]] Disconnect.beforeEstablish).upstreamChunksRead = 0) := by
  decide

/-- Claim C2, amended: whenever the client disconnects at or after the
point where the upstream response is established (the close listener of
line 57 is registered), the upstream request is aborted and no chunk
beyond those already relayed before the disconnect is consumed. -/
theorem relay_cancel_after_establish (chunks : List (List Nat)) (k : Nat) :
    (runStreamRelay chunks (.afterChunk k)).upstreamAborted = true ∧
    (runStreamRelay chunks (.afterChunk k)).upstreamChunksRead = min k chunks.length := by
  unfold runStreamRelay
  dsimp only
  split_ifs with h
  · exact ⟨rfl, show k = min k chunks.length by omega⟩
  · exact ⟨rfl, show chunks.length = min k chunks.length by omega⟩

/-- Claim C3: for every script-generation request (buffered or
streaming) that passes validation, the upstream `max_tokens` equals
clamp(round(length / 0.75), 256, 2000), where `length` is the request
value and defaults to 400 when absent; in particular the formula gives
256 at length 0 and 2000 at length 100000. -/
theorem generateScript_max_tokens (b : ScriptBody) (len : Rat)
    (hm : truthyOpt b.model = true) (hs : truthyOpt b.styleSummary = true)
    (hlen : b.length = some (.num len) ∨ (b.length = none ∧ len = 400)) :
    sentMaxTokens (generateScriptHandler b) =
      some (.num (specClamp (mathRound (len / ((3 : Rat) / 4))) 256 2000)) ∧
    sentMaxTokens (generateScriptStreamHandler b) =
      some (.num (specClamp (mathRound (len / ((3 : Rat) / 4))) 256 2000)) ∧
    specClamp (mathRound ((0 : Rat) / ((3 : Rat) / 4))) 256 2000 = 256 ∧
    specClamp (mathRound ((100000 : Rat) / ((3 : Rat) / 4))) 256 2000 = 2000 := by
  have htok : scriptMaxTokens (b.length.getD (.num 400)) =
      specClamp (mathRound (len / ((3 : Rat) / 4))) 256 2000 := by
    rcases hlen with h | ⟨h, h400⟩
    · rw [h]
      simp [scriptMaxTokens, specClamp, jsToNumber]
    · rw [h]
      subst h400
      simp [scriptMaxTokens, specClamp, jsToNumber]
  refine ⟨?_, ?_, ?_, ?_⟩
  · rw [generateScriptHandler_valid b hm hs]
    simp [sentMaxTokens, htok]
  · rw [generateScriptStreamHandler_valid b hm hs]
    simp [sentMaxTokens, htok]
  · norm_num [specClamp, mathRound]
  · norm_num [specClamp, mathRound]

/-- Claim C3, witness: a concrete valid request with length 0 is sent
upstream with max_tokens 256 by both script-generation routes. -/
theorem generateScript_max_tokens_witness :
    truthyOpt (some (JsVal.str "m")) = true ∧
    sentMaxTokens (generateScriptHandler
        { model := some (.str "m"), styleSummary := some (.str "style"),
          length := some (.num 0), intensity := none, theme := none }) =
      some (.num (specClamp (mathRound ((0 : Rat) / ((3 : Rat) / 4))) 256 2000)) ∧
    sentMaxTokens (generateScriptStreamHandler
        { model := some (.str "m"), styleSummary := some (.str "style"),
          length := some (.num 0), intensity := none, theme := none }) =
      some (.num (specClamp (mathRound ((0 : Rat) / ((3 : Rat) / 4))) 256 2000)) ∧
    specClamp (mathRound ((0 : Rat) / ((3 : Rat) / 4))) 256 2000 = 256 :=
  have h := generateScript_max_tokens
    { model := some (.str "m"), styleSummary := some (.str "style"),
      length := some (.num 0), intensity := none, theme := none }
    0 (by decide) (by decide) (Or.inl rfl)
  ⟨by decide, h.1, h.2.1, h.2.2.1⟩

/-- Claim C4: each buffered POST endpoint rejects a body missing its
required fields with HTTP 400 and the endpoint's message — "Model is
required" for chat, the field-specific messages for style-analysis and
script-generation — and the `clientError` result means no upstream
call is made. -/
theorem missing_fields_rejected :
    (∀ b : ChatBody, b.model = none →
      chatHandler b = .clientError 400 "Model is required") ∧
    (∀ b : StyleBody, b.model = none ∨ b.samples = none →
      analyzeStyleHandler b =
        .clientError 400 "Model and at least one text sample are required.") ∧
    (∀ b : ScriptBody, b.model = none ∨ b.styleSummary = none →
      generateScriptHandler b =
        .clientError 400 "Model and a style summary are required.") := by
  refine ⟨?_, ?_, ?_⟩
  · intro b h
    simp [chatHandler, h, truthyOpt]
  · intro b h
    rcases h with h | h <;> simp [analyzeStyleHandler, styleInvalid, h, truthyOpt]
  · intro b h
    rcases h with h | h <;> simp [generateScriptHandler, h, truthyOpt]

/-- Claim C4, witness: concrete bodies with the required field absent
are rejected by each buffered endpoint. -/
theorem missing_fields_rejected_witness :
    chatHandler { model := none, messages := none, temperature := none, maxTokens := none } =
      .clientError 400 "Model is required" ∧
    analyzeStyleHandler { model := none, samples := some (.arr [.str "A"]) } =
      .clientError 400 "Model and at least one text sample are required." ∧
    generateScriptHandler
        { model := some (.str "m"), styleSummary := none,
          length := none, intensity := none, theme := none } =
      .clientError 400 "Model and a style summary are required." :=
  ⟨missing_fields_rejected.1 _ rfl,
    missing_fields_rejected.2.1 _ (Or.inl rfl),
    missing_fields_rejected.2.2 _ (Or.inr rfl)⟩

/-- Claim C5: whenever the upstream responds with a non-2xx status, a
buffered route answers HTTP 500 with a JSON object carrying a
`message` field — for GET /api/models (bare `bufferedRespond`) and for
every validated POST route (`respondBuffered` after a `callUpstream`
validation result). -/
theorem upstream_error_maps_to_500 (r : UpstreamResponse)
    (hstatus : ¬(200 ≤ r.status ∧ r.status ≤ 299)) :
    ((bufferedRespond r).status = 500 ∧
      (bufferedRespond r).body.hasField "message" = true) ∧
    ∀ (P : Type) (h : HandlerResult P) (p : P), h = .callUpstream p →
      (respondBuffered h r).status = 500 ∧
      (respondBuffered h r).body.hasField "message" = true := by
  have hok : responseOk r = false := by
    simp only [responseOk, Bool.and_eq_false_iff, decide_eq_false_iff_not]
    omega
  have hbase : (bufferedRespond r).status = 500 ∧
      (bufferedRespond r).body.hasField "message" = true := by
    simp [bufferedRespond, callLmStudio, hok, errorResponse, JsVal.hasField]
  refine ⟨hbase, ?_⟩
  intro P h p hcall
  subst hcall
  simpa [respondBuffered] using hbase

/-- Claim C5, witness: a concrete 404 upstream response yields a 500
envelope with a message field, both bare and behind a validated chat
request. -/
theorem upstream_error_maps_to_500_witness :
    ¬(200 ≤ 404 ∧ (404 : Nat) ≤ 299) ∧
    (bufferedRespond ⟨404, "not found", .null⟩).status = 500 ∧
    (bufferedRespond ⟨404, "not found", .null⟩).body.hasField "message" = true :=
  have h := upstream_error_maps_to_500 ⟨404, "not found", .null⟩ (by decide)
  ⟨by decide, h.1.1, h.1.2⟩

/-- Claim C6: every chat request with a truthy model is forwarded with
the body's model and messages passed through, `max_tokens` equal to the
body's maxTokens (512 when the field is absent) and `temperature`
equal to the body's temperature (0.7 when absent). -/
theorem chat_payload_passthrough (b : ChatBody) (hm : truthyOpt b.model = true) :
    chatHandler b = .callUpstream
      { model := b.model
        messages := b.messages
        max_tokens := b.maxTokens.getD (.num 512)
        temperature := b.temperature.getD (.num ((7 : Rat) / 10)) } :=
  chatHandler_valid b hm

/-- Claim C6, witness: a concrete chat body without maxTokens and
temperature is forwarded with the defaults 512 and 0.7. -/
theorem chat_payload_passthrough_witness :
    truthyOpt (some (JsVal.str "m")) = true ∧
    chatHandler
        { model := some (.str "m"), messages := some (.arr [.str "hello"]),
          temperature := none, maxTokens := none } =
      .callUpstream
        { model := some (.str "m")
          messages := some (.arr [.str "hello"])
          max_tokens := .num 512
          temperature := .num ((7 : Rat) / 10) } :=
  ⟨by decide, chat_payload_passthrough _ (by decide)⟩

/-- Claim C7: for every valid style-analysis request over string
samples, the user-turn content of the upstream payload (buffered and
streaming route alike) is exactly the spec's enumerated rendering —
sample i (1-based) as "Sample i:", a newline, the sample text, blocks
separated by a blank line — and on ["A", "B"] that rendering is
exactly "Sample 1:\nA\n\nSample 2:\nB". -/
theorem analyzeStyle_user_turn (samples : List String) (m : JsVal)
    (hm : truthy m = true) (hne : samples ≠ []) :
    analyzeStyleHandler { model := some m, samples := some (.arr (samples.map .str)) } =
      .callUpstream
        { stream := false
          model := some m
          messages :=
            [ { role := "system", content := stylePromptBuffered }
            , { role := "user", content := specJoinedSamples samples } ]
          max_tokens := .num 600
          temperature := .num ((1 : Rat) / 2) } ∧
    analyzeStyleStreamHandler { model := some m, samples := some (.arr (samples.map .str)) } =
      .callUpstream
        { stream := true
          model := some m
          messages :=
            [ { role := "system", content := stylePromptStream }
            , { role := "user", content := specJoinedSamples samples } ]
          max_tokens := .num 600
          temperature := .num ((1 : Rat) / 2) } ∧
    specJoinedSamples ["A", "B"] = "Sample 1:\nA\n\nSample 2:\nB" := by
  have hne' : samples.map JsVal.str ≠ [] := by
    simp only [ne_eq, List.map_eq_nil_iff]
    exact hne
  have hinv := styleInvalid_false m (samples.map .str) hm hne'
  refine ⟨?_, ?_, by decide⟩
  · simp [analyzeStyleHandler, hinv, jsArrayElems, joinedSamples_spec]
  · simp [analyzeStyleStreamHandler, hinv, jsArrayElems, joinedSamples_spec]

/-- Claim C7, witness: the samples ["A", "B"] produce the user turn
"Sample 1:\nA\n\nSample 2:\nB" on the buffered route. -/
theorem analyzeStyle_user_turn_witness :
    truthy (JsVal.str "model") = true ∧ (["A", "B"] : List String) ≠ [] ∧
    analyzeStyleHandler
        { model := some (.str "model"),
          samples := some (.arr ((["A", "B"] : List String).map .str)) } =
      .callUpstream
        { stream := false
          model := some (.str "model")
          messages :=
            [ { role := "system", content := stylePromptBuffered }
            , { role := "user", content := specJoinedSamples ["A", "B"] } ]
          max_tokens := .num 600
          temperature := .num ((1 : Rat) / 2) } :=
  ⟨by decide, by decide,
    (analyzeStyle_user_turn ["A", "B"] (.str "model") (by decide) (by decide)).1⟩

/-- Claim C8, counterexample: the fallback is `app.get('*')`, so a
request whose method is not GET/HEAD does not reach it even though its
method and path match no API route and no static asset: a POST to an
unmatched path falls through to Express's built-in 404 instead of
being served the UI entry document. -/
theorem fallback_not_served_for_post :
    dispatch (fun _ => false) .POST "/client/route" = .expressNotFound ∧
    dispatch (fun _ => false) .POST "/client/route" ≠ .serveIndex := by
  decide

/-- Claim C8, amended: every GET request whose path is not a static
asset and not /api/models is served the static UI entry document by
the `app.get('*')` fallback, regardless of the path; a non-GET request
to an unmatched path instead gets Express's built-in 404. -/
theorem fallback_serves_index_for_get (isStatic : String → Bool) (p : String)
    (hstatic : isStatic p = false) (hmodels : p ≠ "/api/models") :
    dispatch isStatic .GET p = .serveIndex ∧
    (∀ q : String, isStatic q = false → q ≠ "/api/chat" → q ≠ "/api/analyze-style" →
      q ≠ "/api/analyze-style/stream" → q ≠ "/api/generate-script" →
      q ≠ "/api/generate-script/stream" → dispatch isStatic .POST q = .expressNotFound) := by
  constructor
  · simp [dispatch, hstatic, hmodels]
  · intro q h1 h2 h3 h4 h5 h6
    simp [dispatch, h1, h2, h3, h4, h5, h6]

/-- Claim C8, witness: a concrete unmatched GET path with no static
assets is served the UI entry document. -/
theorem fallback_serves_index_for_get_witness :
    ((fun _ => false) : String → Bool) "/some/client/route" = false ∧
    ("/some/client/route" : String) ≠ "/api/models" ∧
    dispatch (fun _ => false) .GET "/some/client/route" = .serveIndex :=
  ⟨rfl, by decide, (fallback_serves_index_for_get _ _ rfl (by decide)).1⟩

/-- Claim C9: both style-analysis routes answer 400 with "Model and at
least one text sample are required." whenever the body has a truthy
model and a truthy samples value that is not an array or is the empty
array — the guard `!Array.isArray(samples) || samples.length === 0` is
stricter than absent/empty. -/
theorem style_rejects_non_array_samples (b : StyleBody) (m s : JsVal)
    (hbm : b.model = some m) (hm : truthy m = true)
    (hbs : b.samples = some s) (hs : truthy s = true)
    (hbad : (∀ xs, s ≠ .arr xs) ∨ s = .arr []) :
    analyzeStyleHandler b =
      .clientError 400 "Model and at least one text sample are required." ∧
    analyzeStyleStreamHandler b =
      .clientError 400 "Model and at least one text sample are required." := by
  have hinv : styleInvalid b = true := by
    rcases hbad with h | h
    · have hna : isJsArray b.samples = false := by
        rw [hbs]
        rcases s with _ | c | q | st | xs | fs
        · rfl
        · rfl
        · rfl
        · rfl
        · exact absurd rfl (h xs)
        · rfl
      simp [styleInvalid, hna]
    · subst h
      simp [styleInvalid, hbs, jsArrayElems]
  constructor <;> simp [analyzeStyleHandler, analyzeStyleStreamHandler, hinv]

/-- Claim C9, witness: a truthy string passed as samples is rejected
with the endpoint's 400 message. -/
theorem style_rejects_non_array_samples_witness :
    truthy (JsVal.str "m") = true ∧ truthy (JsVal.str "not an array") = true ∧
    analyzeStyleHandler { model := some (.str "m"), samples := some (.str "not an array") } =
      .clientError 400 "Model and at least one text sample are required." :=
  ⟨by decide, by decide,
    (style_rejects_non_array_samples _ _ _ rfl (by decide) rfl (by decide)
      (Or.inl fun _ => by simp)).1⟩

/-- Claim C10: a chat body with a truthy model and no messages field
passes validation; the upstream payload carries messages = undefined —
a key that JSON.stringify omits — and the defaulted max_tokens 512 and
temperature 0.7. -/
theorem chat_messages_optional (b : ChatBody) (hm : truthyOpt b.model = true)
    (hmsg : b.messages = none) (hmt : b.maxTokens = none) (htemp : b.temperature = none) :
    chatHandler b = .callUpstream
      { model := b.model
        messages := none
        max_tokens := .num 512
        temperature := .num ((7 : Rat) / 10) } ∧
    "messages" ∉ chatPayloadKeys
      { model := b.model
        messages := none
        max_tokens := .num 512
        temperature := .num ((7 : Rat) / 10) } := by
  constructor
  · rw [chatHandler_valid b hm, hmsg, hmt, htemp]
    rfl
  · cases b.model <;> simp [chatPayloadKeys]

/-- Claim C10, witness: a body carrying only a model is forwarded with
no messages key and the defaults. -/
theorem chat_messages_optional_witness :
    truthyOpt (some (JsVal.str "m")) = true ∧
    chatHandler
        { model := some (.str "m"), messages := none,
          temperature := none, maxTokens := none } =
      .callUpstream
        { model := some (.str "m"), messages := none,
          max_tokens := .num 512, temperature := .num ((7 : Rat) / 10) } ∧
    "messages" ∉ chatPayloadKeys
        { model := some (.str "m"), messages := none,
          max_tokens := .num 512, temperature := .num ((7 : Rat) / 10) } :=
  have h := chat_messages_optional
    { model := some (.str "m"), messages := none, temperature := none, maxTokens := none }
    (by decide) rfl rfl rfl
  ⟨by decide, h.1, h.2⟩
